import Mathlib

/-!
Verification of `src/scripts/set_github_secrets.py`, a script that reads
secret values from the environment, fetches the target repository public
key over the GitHub API, encrypts each value with a sealed box, and
uploads the ciphertext with an authenticated PUT.

The embedding models the network as an oracle (`Network`) mapping requests
to responses, and records every externally visible action of the program
(HTTP calls and console prints) in an event trace. Python dictionary
lookups that can raise `KeyError` are modelled with `Except`; `sys.exit`
and unhandled exceptions are modelled by the `Outcome` type. The sealed
box primitive lives in the external pynacl library, not in this
repository, so it is modelled symbolically from the spec.
-/

set_option autoImplicit false

/-- Modelled from the spec: the sealed box ciphertext produced by pynacl
(`SealedBox.encrypt`), which is missing from the repository sources. The
spec describes sealed boxes as anonymous sender public key encryption with
ephemeral keying, so a ciphertext is determined by the recipient public
key it was encrypted under, the ephemeral keying material drawn for the
call, and the plaintext. The base64 transport encoding applied by the
script is injective, so it is dropped in the model. -/
structure Ciphertext where
  recipient_key : String
  ephemeral : String
  plaintext : String
deriving DecidableEq, Repr

/-- Modelled from the spec: a key pair for the sealed box scheme, whose
implementation (pynacl) is missing from the repository sources. The
public half is the base64 string the remote API serves. -/
structure KeyPair where
  private_key : String
  public_key : String

/-- Modelled from the spec: sealed box encryption (pynacl
`SealedBox.encrypt`), missing from the repository sources. Encrypting
binds the ciphertext to the recipient public key and to the ephemeral
keying material of this call. -/
def sealedBoxSeal (recipient_key plaintext ephemeral : String) : Ciphertext :=
  ⟨recipient_key, ephemeral, plaintext⟩

/-- Modelled from the spec: sealed box decryption (pynacl
`SealedBox.decrypt`), missing from the repository sources. Only the holder
of the private key matching the recipient public key can open the box. -/
def sealedBoxOpen (kp : KeyPair) (c : Ciphertext) : Option String :=
  if c.recipient_key = kp.public_key then some c.plaintext else none

/-- Embedding of `encrypt_secret` (set_github_secrets.py lines 14 to 19):
decode the base64 public key, seal the UTF-8 plaintext, return the
base64 ciphertext. The ephemeral keying material drawn by the library for
this call is passed explicitly. -/
def encrypt_secret (public_key : String) (secret_value : String)
    (ephemeral : String) : Ciphertext :=
  sealedBoxSeal public_key secret_value ephemeral

/-- An HTTP response as the script observes it: status code and body. -/
structure HttpResponse where
  status_code : Nat
  text : String
deriving DecidableEq, Repr

/-- JSON body of the public key endpoint response. Either field may be
absent, in which case the Python dictionary lookup raises `KeyError`. -/
structure KeyResponseJson where
  key : Option String
  key_id : Option String

/-- JSON body of the PUT request built at lines 42 to 45 of the script. -/
structure PutBody where
  encrypted_value : Ciphertext
  key_id : String
deriving DecidableEq, Repr

/-- The field whose dictionary lookup raised `KeyError`. -/
inductive KeyErrorField where
  | key
  | key_id
deriving DecidableEq, Repr

/-- Externally visible actions of the script: the authenticated GET for
the public key, the authenticated PUT of a secret, and console prints. -/
inductive Event where
  | getKey (url : String) (bearer : String)
  | put (url : String) (bearer : String) (body : PutBody)
  | printed (line : String)
deriving DecidableEq, Repr

/-- Network oracle: the key endpoint response per repository, and the PUT
response per repository, secret name and request body. -/
structure Network where
  keyResponse : String → KeyResponseJson
  putResponse : String → String → PutBody → HttpResponse

/-- Embedding of `set_secret` (set_github_secrets.py lines 21 to 53).
Returns the events the call emits and either the Bool the Python function
returns or the `KeyError` it raises when the key response lacks a field.
The lookup `key_data["key"]` happens at line 36 before encryption and
`key_data["key_id"]` at line 44 inside the PUT body. -/
def set_secret (net : Network) (repo token secret_name secret_value : String)
    (ephemeral : String) : List Event × Except KeyErrorField Bool :=
  let key_url := "https://api.github.com/repos/" ++ repo ++ "/actions/secrets/public-key"
  let key_data := net.keyResponse repo
  match key_data.key with
  | none => ([Event.getKey key_url token], Except.error KeyErrorField.key)
  | some key =>
      let encrypted_value := encrypt_secret key secret_value ephemeral
      match key_data.key_id with
      | none => ([Event.getKey key_url token], Except.error KeyErrorField.key_id)
      | some kid =>
          let put_url := "https://api.github.com/repos/" ++ repo ++ "/actions/secrets/" ++ secret_name
          let body : PutBody := ⟨encrypted_value, kid⟩
          let response := net.putResponse repo secret_name body
          if response.status_code = 201 ∨ response.status_code = 204 then
            ([Event.getKey key_url token, Event.put put_url token body,
              Event.printed ("✓ Set secret: " ++ secret_name)], Except.ok true)
          else
            ([Event.getKey key_url token, Event.put put_url token body,
              Event.printed ("✗ Failed to set " ++ secret_name ++ ": " ++
                toString response.status_code ++ " " ++ response.text)], Except.ok false)

/-- How the process run ends: `exited c` models `sys.exit(c)` or normal
completion (exit 0); `fault f` models an unhandled `KeyError` aborting
the whole run. -/
inductive Outcome where
  | exited (code : Nat)
  | fault (f : KeyErrorField)
deriving DecidableEq, Repr

/-- Python truthiness of an optional string: `None` and the empty string
are falsy, as in `if not repo` (line 63) and `if value` (line 80). -/
def truthy : Option String → Bool
  | none => false
  | some s => s ≠ ""

/-- Embedding of the per-secret loop of `main` (set_github_secrets.py
lines 78 to 86). Walks the remaining `(name, value)` pairs in order,
carrying the index of the iteration (used to address the ephemeral
stream `ephs`), the running `success_count`, and `total = len(secrets)`
used by the final summary print. A `KeyError` from `set_secret` is not
caught, so it aborts the run with the events emitted so far. -/
def runLoop (net : Network) (ephs : Nat → String) (repo token : String) :
    List (String × Option String) → Nat → Nat → Nat → List Event × Outcome
  | [], _, success_count, total =>
      ([Event.printed ("\nSet " ++ toString success_count ++ "/" ++
        toString total ++ " secrets")], Outcome.exited 0)
  | (name, value) :: rest, i, success_count, total =>
      if truthy value then
        let p := set_secret net repo token name (value.getD "") (ephs i)
        match p.2 with
        | Except.error f => (p.1, Outcome.fault f)
        | Except.ok ok =>
            let r := runLoop net ephs repo token rest (i + 1)
              (if ok then success_count + 1 else success_count) total
            (p.1 ++ r.1, r.2)
      else
        let r := runLoop net ephs repo token rest (i + 1) success_count total
        (Event.printed ("⚠ Skipping " ++ name ++ ": not set in environment") :: r.1,
          r.2)

/-- Embedding of `main` (set_github_secrets.py lines 55 to 86). The
source reads `GITHUB_REPO`, `GITHUB_TOKEN` and seven fixed secret names
from the environment; the embedding abstracts over the optional repo and
token values and over the materialized name to optional value mapping.
If repo or token is falsy the script prints an error and exits 1 before
any network activity; otherwise it runs the loop and exits 0 unless an
unhandled `KeyError` aborts it. -/
def main_run (repo token : Option String) (secrets : List (String × Option String))
    (net : Network) (ephs : Nat → String) : List Event × Outcome :=
  if truthy repo && truthy token then
    runLoop net ephs (repo.getD "") (token.getD "") secrets 0 0 secrets.length
  else
    ([Event.printed "Error: GITHUB_REPO and GITHUB_TOKEN must be set"],
      Outcome.exited 1)

/-- Whether an event is the GET for the public key endpoint. -/
def isFetch : Event → Bool
  | Event.getKey _ _ => true
  | _ => false

/-- Number of key fetch events in a trace. -/
def fetchCount (evs : List Event) : Nat :=
  (evs.filter isFetch).length

/-- Number of secrets with a truthy (set and non-empty) value. -/
def truthyCount (secrets : List (String × Option String)) : Nat :=
  (secrets.filter fun p => truthy p.2).length

/-- Successes the loop will accumulate from the remaining secrets, or
`none` when a `KeyError` aborts the run first. -/
def successesOf (net : Network) (ephs : Nat → String) (repo token : String) :
    List (String × Option String) → Nat → Option Nat
  | [], _ => some 0
  | (name, value) :: rest, i =>
      if truthy value then
        match (set_secret net repo token name (value.getD "") (ephs i)).2 with
        | Except.error _ => none
        | Except.ok ok =>
            (successesOf net ephs repo token rest (i + 1)).map
              (fun n => (if ok then 1 else 0) + n)
      else
        successesOf net ephs repo token rest (i + 1)

/-- A network oracle whose key endpoint always serves a well formed key
and whose PUT endpoint always answers 201 with an empty body. -/
def net201 : Network :=
  ⟨fun _ => ⟨some "PK", some "KID"⟩, fun _ _ _ => ⟨201, ""⟩⟩

/-- Ephemeral stream used by concrete runs: call number as a string. -/
def ephs0 : Nat → String := fun n => toString n

/-- A network oracle whose key endpoint is well formed but whose PUT
endpoint always answers 403 Forbidden. -/
def net403 : Network :=
  ⟨fun _ => ⟨some "PK", some "KID"⟩, fun _ _ _ => ⟨403, "Forbidden"⟩⟩

/-- A network oracle whose key endpoint answers without a `key` field. -/
def netNoKey : Network :=
  ⟨fun _ => ⟨none, none⟩, fun _ _ _ => ⟨201, ""⟩⟩

/-- A network oracle whose key endpoint answers with a `key` field but
without a `key_id` field. -/
def netNoKid : Network :=
  ⟨fun _ => ⟨some "PK", none⟩, fun _ _ _ => ⟨201, ""⟩⟩

/-! Helper lemmas about `set_secret` and the loop. -/

/-- With a well formed key response, `set_secret` reaches the PUT and
classifies its status code as the source does at lines 48 to 53. -/
theorem set_secret_eq (net : Network) (repo token name v eph k kid : String)
    (hk : (net.keyResponse repo).key = some k)
    (hkid : (net.keyResponse repo).key_id = some kid) :
    set_secret net repo token name v eph =
      (let key_url := "https://api.github.com/repos/" ++ repo ++ "/actions/secrets/public-key"
       let put_url := "https://api.github.com/repos/" ++ repo ++ "/actions/secrets/" ++ name
       let body : PutBody := ⟨encrypt_secret k v eph, kid⟩
       let resp := net.putResponse repo name body
       if resp.status_code = 201 ∨ resp.status_code = 204 then
         ([Event.getKey key_url token, Event.put put_url token body,
           Event.printed ("✓ Set secret: " ++ name)], Except.ok true)
       else
         ([Event.getKey key_url token, Event.put put_url token body,
           Event.printed ("✗ Failed to set " ++ name ++ ": " ++
             toString resp.status_code ++ " " ++ resp.text)], Except.ok false)) := by
  simp only [set_secret, hk, hkid]

/-- With a well formed key response, `set_secret` returns a Bool and does
not raise. -/
theorem set_secret_snd_ok (net : Network) (repo token name v eph k kid : String)
    (hk : (net.keyResponse repo).key = some k)
    (hkid : (net.keyResponse repo).key_id = some kid) :
    ∃ b, (set_secret net repo token name v eph).2 = Except.ok b := by
  rw [set_secret_eq net repo token name v eph k kid hk hkid]
  dsimp only
  split
  · exact ⟨true, rfl⟩
  · exact ⟨false, rfl⟩

/-- Every `set_secret` call emits exactly one key fetch, whatever the
oracle answers. -/
theorem set_secret_fetchCount (net : Network) (repo token name v eph : String) :
    fetchCount (set_secret net repo token name v eph).1 = 1 := by
  simp only [set_secret]
  split
  · rfl
  · split
    · rfl
    · split <;> rfl

/-- The first event of every `set_secret` call is the authenticated GET
for the public key of its own repository. -/
theorem set_secret_head (net : Network) (repo token name v eph : String) :
    (set_secret net repo token name v eph).1.head? =
      some (Event.getKey
        ("https://api.github.com/repos/" ++ repo ++ "/actions/secrets/public-key") token) := by
  simp only [set_secret]
  split
  · rfl
  · split
    · rfl
    · split <;> rfl

/-- Fetch counting distributes over trace concatenation. -/
theorem fetchCount_append (a b : List Event) :
    fetchCount (a ++ b) = fetchCount a + fetchCount b := by
  simp [fetchCount, List.filter_append]

/-- Loop step on a falsy value: only the skip line is printed and the
loop state is otherwise unchanged. -/
theorem runLoop_cons_skip (net : Network) (ephs : Nat → String) (repo token name : String)
    (value : Option String) (rest : List (String × Option String)) (i sc total : Nat)
    (h : truthy value = false) :
    runLoop net ephs repo token ((name, value) :: rest) i sc total =
      (Event.printed ("⚠ Skipping " ++ name ++ ": not set in environment") ::
        (runLoop net ephs repo token rest (i + 1) sc total).1,
       (runLoop net ephs repo token rest (i + 1) sc total).2) := by
  simp [runLoop, h]

/-- Loop step on a truthy value whose `set_secret` returns: the call
events are emitted and the success count grows exactly on `true`. -/
theorem runLoop_cons_exec (net : Network) (ephs : Nat → String) (repo token name : String)
    (value : Option String) (rest : List (String × Option String)) (i sc total : Nat)
    (b : Bool) (h : truthy value = true)
    (hb : (set_secret net repo token name (value.getD "") (ephs i)).2 = Except.ok b) :
    runLoop net ephs repo token ((name, value) :: rest) i sc total =
      ((set_secret net repo token name (value.getD "") (ephs i)).1 ++
        (runLoop net ephs repo token rest (i + 1) (if b then sc + 1 else sc) total).1,
       (runLoop net ephs repo token rest (i + 1) (if b then sc + 1 else sc) total).2) := by
  simp [runLoop, h, hb]

/-- Loop step on a truthy value whose `set_secret` raises `KeyError`:
the run aborts with the events emitted so far. -/
theorem runLoop_cons_fault (net : Network) (ephs : Nat → String) (repo token name : String)
    (value : Option String) (rest : List (String × Option String)) (i sc total : Nat)
    (f : KeyErrorField) (h : truthy value = true)
    (hb : (set_secret net repo token name (value.getD "") (ephs i)).2 = Except.error f) :
    runLoop net ephs repo token ((name, value) :: rest) i sc total =
      ((set_secret net repo token name (value.getD "") (ephs i)).1, Outcome.fault f) := by
  simp [runLoop, h, hb]

/-- When no `KeyError` occurs the loop ends by printing the summary of
line 86 with the accumulated success count and exits normally. -/
theorem runLoop_summary (net : Network) (ephs : Nat → String) (repo token : String) :
    ∀ (pending : List (String × Option String)) (i sc total n : Nat),
    successesOf net ephs repo token pending i = some n →
    ∃ evs, runLoop net ephs repo token pending i sc total =
      (evs ++ [Event.printed ("\nSet " ++ toString (sc + n) ++ "/" ++
        toString total ++ " secrets")], Outcome.exited 0) := by
  intro pending
  induction pending with
  | nil =>
      intro i sc total n hn
      simp [successesOf] at hn
      subst hn
      exact ⟨[], by simp [runLoop]⟩
  | cons hd rest ih =>
      obtain ⟨name, value⟩ := hd
      intro i sc total n hn
      cases h : truthy value with
      | false =>
          simp only [successesOf, h, if_false, Bool.false_eq_true] at hn
          obtain ⟨evs, hevs⟩ := ih (i + 1) sc total n hn
          refine ⟨Event.printed ("⚠ Skipping " ++ name ++ ": not set in environment") :: evs, ?_⟩
          rw [runLoop_cons_skip net ephs repo token name value rest i sc total h, hevs]
          rfl
      | true =>
          simp only [successesOf, h, if_true] at hn
          cases hs : (set_secret net repo token name (value.getD "") (ephs i)).2 with
          | error f => rw [hs] at hn; simp at hn
          | ok b =>
              rw [hs] at hn
              rw [Option.map_eq_some'] at hn
              obtain ⟨m, hm, hnm⟩ := hn
              obtain ⟨evs, hevs⟩ := ih (i + 1) (if b then sc + 1 else sc) total m hm
              refine ⟨(set_secret net repo token name (value.getD "") (ephs i)).1 ++ evs, ?_⟩
              rw [runLoop_cons_exec net ephs repo token name value rest i sc total b h hs, hevs]
              have hsum : (if b then sc + 1 else sc) + m = sc + n := by
                cases b <;> simp at hnm ⊢ <;> omega
              rw [hsum, List.append_assoc]

/-- With a well formed key response for the repository, no iteration
raises, so the loop accumulates a definite success count. -/
theorem successesOf_isSome (net : Network) (ephs : Nat → String) (repo token k kid : String)
    (hk : (net.keyResponse repo).key = some k)
    (hkid : (net.keyResponse repo).key_id = some kid) :
    ∀ (pending : List (String × Option String)) (i : Nat),
    ∃ n, successesOf net ephs repo token pending i = some n := by
  intro pending
  induction pending with
  | nil => intro i; exact ⟨0, rfl⟩
  | cons hd rest ih =>
      obtain ⟨name, value⟩ := hd
      intro i
      cases h : truthy value with
      | false =>
          obtain ⟨n, hn⟩ := ih (i + 1)
          exact ⟨n, by simp [successesOf, h, hn]⟩
      | true =>
          obtain ⟨b, hb⟩ := set_secret_snd_ok net repo token name (value.getD "") (ephs i) k kid hk hkid
          obtain ⟨n, hn⟩ := ih (i + 1)
          refine ⟨(if b then 1 else 0) + n, ?_⟩
          simp [successesOf, h, hb, hn]

/-- With a well formed key response, the loop emits exactly one key
fetch per truthy secret. -/
theorem runLoop_fetchCount (net : Network) (ephs : Nat → String) (repo token k kid : String)
    (hk : (net.keyResponse repo).key = some k)
    (hkid : (net.keyResponse repo).key_id = some kid) :
    ∀ (pending : List (String × Option String)) (i sc total : Nat),
    fetchCount (runLoop net ephs repo token pending i sc total).1 = truthyCount pending := by
  intro pending
  induction pending with
  | nil => intro i sc total; rfl
  | cons hd rest ih =>
      obtain ⟨name, value⟩ := hd
      intro i sc total
      cases h : truthy value with
      | false =>
          rw [runLoop_cons_skip net ephs repo token name value rest i sc total h]
          have hc : truthyCount ((name, value) :: rest) = truthyCount rest := by
            simp [truthyCount, List.filter, h]
          rw [hc]
          have hstep : fetchCount (Event.printed ("⚠ Skipping " ++ name ++ ": not set in environment") ::
              (runLoop net ephs repo token rest (i + 1) sc total).1) =
              fetchCount (runLoop net ephs repo token rest (i + 1) sc total).1 := by
            simp [fetchCount, List.filter, isFetch]
          rw [hstep, ih (i + 1) sc total]
      | true =>
          obtain ⟨b, hb⟩ := set_secret_snd_ok net repo token name (value.getD "") (ephs i) k kid hk hkid
          rw [runLoop_cons_exec net ephs repo token name value rest i sc total b h hb]
          have hc : truthyCount ((name, value) :: rest) = 1 + truthyCount rest := by
            simp [truthyCount, List.filter, h, Nat.add_comm]
          rw [hc]
          simp only [fetchCount_append]
          rw [set_secret_fetchCount, ih (i + 1)]

/-! Claim theorems. -/

/-- C1: for every secret whose plaintext value is empty or unset, the
publish loop performs no key fetch and no PUT for that secret: the only
event it contributes is the skip line, and the success count and the
rest of the run are unchanged, so the secret is reported as skipped,
distinct from a failure. -/
theorem skipped_value_not_fetched (net : Network) (ephs : Nat → String)
    (repo token name : String) (value : Option String)
    (rest : List (String × Option String)) (i sc total : Nat)
    (h : truthy value = false) :
    runLoop net ephs repo token ((name, value) :: rest) i sc total =
      (Event.printed ("⚠ Skipping " ++ name ++ ": not set in environment") ::
        (runLoop net ephs repo token rest (i + 1) sc total).1,
       (runLoop net ephs repo token rest (i + 1) sc total).2) :=
  runLoop_cons_skip net ephs repo token name value rest i sc total h

theorem skipped_value_not_fetched_witness :
    runLoop net201 ephs0 "r" "t" [("B", some "")] 0 0 1 =
      (Event.printed ("⚠ Skipping " ++ "B" ++ ": not set in environment") ::
        (runLoop net201 ephs0 "r" "t" [] 1 0 1).1,
       (runLoop net201 ephs0 "r" "t" [] 1 0 1).2) :=
  skipped_value_not_fetched net201 ephs0 "r" "t" "B" (some "") [] 0 0 1 (by decide)

/-- C2: for a submit of a non-empty secret under a well formed key
response, a PUT status of 201 or 204 is classified as success and makes
the loop continue with the success count incremented exactly once; any
other status is classified as failure, the failure line carrying the
status code and response body is printed, and the success count is left
unchanged. -/
theorem submit_status_classification (net : Network) (ephs : Nat → String)
    (repo token name v : String) (rest : List (String × Option String))
    (i sc total : Nat) (k kid : String)
    (hk : (net.keyResponse repo).key = some k)
    (hkid : (net.keyResponse repo).key_id = some kid)
    (hv : v ≠ "") :
    (((net.putResponse repo name ⟨encrypt_secret k v (ephs i), kid⟩).status_code = 201 ∨
      (net.putResponse repo name ⟨encrypt_secret k v (ephs i), kid⟩).status_code = 204) →
        (set_secret net repo token name v (ephs i)).2 = Except.ok true ∧
        runLoop net ephs repo token ((name, some v) :: rest) i sc total =
          ((set_secret net repo token name v (ephs i)).1 ++
            (runLoop net ephs repo token rest (i + 1) (sc + 1) total).1,
           (runLoop net ephs repo token rest (i + 1) (sc + 1) total).2)) ∧
    ((¬((net.putResponse repo name ⟨encrypt_secret k v (ephs i), kid⟩).status_code = 201 ∨
        (net.putResponse repo name ⟨encrypt_secret k v (ephs i), kid⟩).status_code = 204)) →
        (set_secret net repo token name v (ephs i)).2 = Except.ok false ∧
        Event.printed ("✗ Failed to set " ++ name ++ ": " ++
          toString (net.putResponse repo name ⟨encrypt_secret k v (ephs i), kid⟩).status_code ++
          " " ++ (net.putResponse repo name ⟨encrypt_secret k v (ephs i), kid⟩).text) ∈
          (set_secret net repo token name v (ephs i)).1 ∧
        runLoop net ephs repo token ((name, some v) :: rest) i sc total =
          ((set_secret net repo token name v (ephs i)).1 ++
            (runLoop net ephs repo token rest (i + 1) sc total).1,
           (runLoop net ephs repo token rest (i + 1) sc total).2)) := by
  have htr : truthy (some v) = true := by simp [truthy, hv]
  have heq := set_secret_eq net repo token name v (ephs i) k kid hk hkid
  constructor
  · intro hs
    have h2 : (set_secret net repo token name v (ephs i)).2 = Except.ok true := by
      rw [heq]; dsimp only; rw [if_pos hs]
    refine ⟨h2, ?_⟩
    have hstep := runLoop_cons_exec net ephs repo token name (some v) rest i sc total true htr
      (by simpa using h2)
    simpa using hstep
  · intro hs
    have h2 : (set_secret net repo token name v (ephs i)).2 = Except.ok false := by
      rw [heq]; dsimp only; rw [if_neg hs]
    refine ⟨h2, ?_, ?_⟩
    · rw [heq]; dsimp only; rw [if_neg hs]; simp
    · have hstep := runLoop_cons_exec net ephs repo token name (some v) rest i sc total false htr
        (by simpa using h2)
      simpa using hstep

theorem submit_status_classification_witness :
    (set_secret net201 "r" "t" "A" "x" (ephs0 0)).2 = Except.ok true ∧
    runLoop net201 ephs0 "r" "t" [("A", some "x")] 0 0 1 =
      ((set_secret net201 "r" "t" "A" "x" (ephs0 0)).1 ++
        (runLoop net201 ephs0 "r" "t" [] 1 1 1).1,
       (runLoop net201 ephs0 "r" "t" [] 1 1 1).2) :=
  (submit_status_classification net201 ephs0 "r" "t" "A" "x" [] 0 0 1 "PK" "KID"
    rfl rfl (by decide)).1 (by decide)

/-- C3 counterexample: with secrets A set and B unset, one secret is
attempted (truthyCount = 1) and it succeeds (successesOf = some 1), yet
the printed summary reads 1 out of 2, not 1 out of 1: the denominator is
the number of configured secrets, not the number of attempted ones. -/
theorem summary_not_out_of_attempted :
    truthyCount [("A", some "x"), ("B", none)] = 1 ∧
    successesOf net201 ephs0 "r" "t" [("A", some "x"), ("B", none)] 0 = some 1 ∧
    Event.printed "\nSet 1/2 secrets" ∈
      (main_run (some "r") (some "t") [("A", some "x"), ("B", none)] net201 ephs0).1 ∧
    Event.printed "\nSet 1/1 secrets" ∉
      (main_run (some "r") (some "t") [("A", some "x"), ("B", none)] net201 ephs0).1 := by
  decide

/-- C3 amended: after all secrets are processed without an unhandled
fault, the last line printed is a summary counting successes out of the
total number of configured secrets, including the skipped ones. -/
theorem summary_counts_all_configured (repo token : Option String)
    (secrets : List (String × Option String)) (net : Network) (ephs : Nat → String)
    (n : Nat) (hr : truthy repo = true) (ht : truthy token = true)
    (hn : successesOf net ephs (repo.getD "") (token.getD "") secrets 0 = some n) :
    ∃ evs, main_run repo token secrets net ephs =
      (evs ++ [Event.printed ("\nSet " ++ toString n ++ "/" ++
        toString secrets.length ++ " secrets")], Outcome.exited 0) := by
  obtain ⟨evs, hevs⟩ :=
    runLoop_summary net ephs (repo.getD "") (token.getD "") secrets 0 0 secrets.length n hn
  refine ⟨evs, ?_⟩
  simp only [main_run, hr, ht, Bool.and_self, if_true]
  simpa using hevs

theorem summary_counts_all_configured_witness :
    ∃ evs, main_run (some "r") (some "t") [("A", some "x"), ("B", none)] net201 ephs0 =
      (evs ++ [Event.printed ("\nSet " ++ toString (1 : Nat) ++ "/" ++
        toString (2 : Nat) ++ " secrets")], Outcome.exited 0) :=
  summary_counts_all_configured (some "r") (some "t") [("A", some "x"), ("B", none)]
    net201 ephs0 1 rfl rfl (by decide)

/-- C4: for the mapping A set to x, B set to the empty string and C
unset, with every PUT answering 201, the run fetches one key, PUTs one
secret, marks A succeeded, marks B and C skipped, prints the summary
line reading Set 1/3 secrets, and exits 0. -/
theorem scenario_one_of_three :
    main_run (some "owner/repo") (some "tok")
      [("A", some "x"), ("B", some ""), ("C", none)] net201 ephs0 =
      ([Event.getKey "https://api.github.com/repos/owner/repo/actions/secrets/public-key" "tok",
        Event.put "https://api.github.com/repos/owner/repo/actions/secrets/A" "tok"
          ⟨encrypt_secret "PK" "x" "0", "KID"⟩,
        Event.printed "✓ Set secret: A",
        Event.printed "⚠ Skipping B: not set in environment",
        Event.printed "⚠ Skipping C: not set in environment",
        Event.printed "\nSet 1/3 secrets"], Outcome.exited 0) := by
  decide

/-- C5: if the repo or the token is falsy the program prints the
configuration error and exits 1 with no network event; if both are
truthy and the key endpoint answers well formed, the program exits 0
whatever statuses the PUT endpoint answers. -/
theorem exit_code_behavior :
    (∀ (repo token : Option String) (secrets : List (String × Option String))
        (net : Network) (ephs : Nat → String),
      ¬(truthy repo = true ∧ truthy token = true) →
      main_run repo token secrets net ephs =
        ([Event.printed "Error: GITHUB_REPO and GITHUB_TOKEN must be set"],
          Outcome.exited 1)) ∧
    (∀ (repo token : Option String) (secrets : List (String × Option String))
        (net : Network) (ephs : Nat → String) (k kid : String),
      truthy repo = true → truthy token = true →
      (net.keyResponse (repo.getD "")).key = some k →
      (net.keyResponse (repo.getD "")).key_id = some kid →
      (main_run repo token secrets net ephs).2 = Outcome.exited 0) := by
  constructor
  · intro repo token secrets net ephs h
    have hb : (truthy repo && truthy token) = false := by
      cases hr : truthy repo <;> cases ht : truthy token <;> simp_all
    simp [main_run, hb]
  · intro repo token secrets net ephs k kid hr ht hk hkid
    obtain ⟨n, hn⟩ :=
      successesOf_isSome net ephs (repo.getD "") (token.getD "") k kid hk hkid secrets 0
    obtain ⟨evs, hevs⟩ :=
      runLoop_summary net ephs (repo.getD "") (token.getD "") secrets 0 0 secrets.length n hn
    simp [main_run, hr, ht, hevs]

theorem exit_code_behavior_witness :
    main_run none none [("A", some "x")] net201 ephs0 =
      ([Event.printed "Error: GITHUB_REPO and GITHUB_TOKEN must be set"],
        Outcome.exited 1) ∧
    (main_run (some "r") (some "t") [("A", some "x")] net201 ephs0).2 = Outcome.exited 0 :=
  ⟨exit_code_behavior.1 none none [("A", some "x")] net201 ephs0 (by decide),
   exit_code_behavior.2 (some "r") (some "t") [("A", some "x")] net201 ephs0 "PK" "KID"
     rfl rfl rfl rfl⟩

/-- C6: when the PUT for a non-empty secret answers a status that is
neither 201 nor 204, the call prints a failure line carrying the secret
name, the status code and the response body, and the loop continues with
the remaining secrets, the success count unchanged. -/
theorem failed_submit_logged_and_run_continues (net : Network) (ephs : Nat → String)
    (repo token name v : String) (rest : List (String × Option String))
    (i sc total : Nat) (k kid : String)
    (hk : (net.keyResponse repo).key = some k)
    (hkid : (net.keyResponse repo).key_id = some kid)
    (hv : v ≠ "")
    (hfail : ¬((net.putResponse repo name ⟨encrypt_secret k v (ephs i), kid⟩).status_code = 201 ∨
      (net.putResponse repo name ⟨encrypt_secret k v (ephs i), kid⟩).status_code = 204)) :
    Event.printed ("✗ Failed to set " ++ name ++ ": " ++
        toString (net.putResponse repo name ⟨encrypt_secret k v (ephs i), kid⟩).status_code ++
        " " ++ (net.putResponse repo name ⟨encrypt_secret k v (ephs i), kid⟩).text) ∈
      (set_secret net repo token name v (ephs i)).1 ∧
    runLoop net ephs repo token ((name, some v) :: rest) i sc total =
      ((set_secret net repo token name v (ephs i)).1 ++
        (runLoop net ephs repo token rest (i + 1) sc total).1,
       (runLoop net ephs repo token rest (i + 1) sc total).2) := by
  have htr : truthy (some v) = true := by simp [truthy, hv]
  have heq := set_secret_eq net repo token name v (ephs i) k kid hk hkid
  have h2 : (set_secret net repo token name v (ephs i)).2 = Except.ok false := by
    rw [heq]; dsimp only; rw [if_neg hfail]
  constructor
  · rw [heq]; dsimp only; rw [if_neg hfail]; simp
  · have hstep := runLoop_cons_exec net ephs repo token name (some v) rest i sc total false htr
      (by simpa using h2)
    simpa using hstep

theorem failed_submit_logged_and_run_continues_witness :
    Event.printed ("✗ Failed to set " ++ "D" ++ ": " ++
        toString (net403.putResponse "r" "D" ⟨encrypt_secret "PK" "x" (ephs0 0), "KID"⟩).status_code ++
        " " ++ (net403.putResponse "r" "D" ⟨encrypt_secret "PK" "x" (ephs0 0), "KID"⟩).text) ∈
      (set_secret net403 "r" "t" "D" "x" (ephs0 0)).1 ∧
    runLoop net403 ephs0 "r" "t" [("D", some "x"), ("E", some "y")] 0 0 2 =
      ((set_secret net403 "r" "t" "D" "x" (ephs0 0)).1 ++
        (runLoop net403 ephs0 "r" "t" [("E", some "y")] 1 0 2).1,
       (runLoop net403 ephs0 "r" "t" [("E", some "y")] 1 0 2).2) :=
  failed_submit_logged_and_run_continues net403 ephs0 "r" "t" "D" "x" [("E", some "y")]
    0 0 2 "PK" "KID" rfl rfl (by decide) (by decide)

/-- C7: when the key endpoint response lacks the key field, or has a key
but lacks the key identifier field, processing a non-empty secret raises
an unhandled `KeyError`: the run aborts with only the key fetch event
emitted, the remaining secrets unprocessed and no summary printed, so
the condition is not recorded as a per-secret failure. -/
theorem malformed_key_response_aborts_run (net : Network) (ephs : Nat → String)
    (repo token name v : String) (rest : List (String × Option String))
    (i sc total : Nat) (hv : v ≠ "") :
    ((net.keyResponse repo).key = none →
      runLoop net ephs repo token ((name, some v) :: rest) i sc total =
        ([Event.getKey ("https://api.github.com/repos/" ++ repo ++ "/actions/secrets/public-key")
          token], Outcome.fault KeyErrorField.key)) ∧
    (∀ k, (net.keyResponse repo).key = some k →
      (net.keyResponse repo).key_id = none →
      runLoop net ephs repo token ((name, some v) :: rest) i sc total =
        ([Event.getKey ("https://api.github.com/repos/" ++ repo ++ "/actions/secrets/public-key")
          token], Outcome.fault KeyErrorField.key_id)) := by
  have htr : truthy (some v) = true := by simp [truthy, hv]
  constructor
  · intro hnone
    have hs : set_secret net repo token name v (ephs i) =
        ([Event.getKey ("https://api.github.com/repos/" ++ repo ++ "/actions/secrets/public-key")
          token], Except.error KeyErrorField.key) := by
      simp only [set_secret, hnone]
    have hstep := runLoop_cons_fault net ephs repo token name (some v) rest i sc total
      KeyErrorField.key htr (by simpa using congrArg Prod.snd hs)
    simpa [hs] using hstep
  · intro k hk hnone
    have hs : set_secret net repo token name v (ephs i) =
        ([Event.getKey ("https://api.github.com/repos/" ++ repo ++ "/actions/secrets/public-key")
          token], Except.error KeyErrorField.key_id) := by
      simp only [set_secret, hk, hnone]
    have hstep := runLoop_cons_fault net ephs repo token name (some v) rest i sc total
      KeyErrorField.key_id htr (by simpa using congrArg Prod.snd hs)
    simpa [hs] using hstep

theorem malformed_key_response_aborts_run_witness :
    runLoop netNoKey ephs0 "r" "t" [("A", some "x")] 0 0 1 =
      ([Event.getKey ("https://api.github.com/repos/" ++ "r" ++ "/actions/secrets/public-key") "t"],
        Outcome.fault KeyErrorField.key) ∧
    runLoop netNoKid ephs0 "r" "t" [("A", some "x")] 0 0 1 =
      ([Event.getKey ("https://api.github.com/repos/" ++ "r" ++ "/actions/secrets/public-key") "t"],
        Outcome.fault KeyErrorField.key_id) :=
  ⟨(malformed_key_response_aborts_run netNoKey ephs0 "r" "t" "A" "x" [] 0 0 1 (by decide)).1 rfl,
   (malformed_key_response_aborts_run netNoKid ephs0 "r" "t" "A" "x" [] 0 0 1 (by decide)).2
     "PK" rfl rfl⟩

/-- C8: decrypting a ciphertext produced by `encrypt_secret` with the
private key matching the public key used for encryption recovers the
original plaintext exactly, for every plaintext, key pair and ephemeral
choice. -/
theorem sealed_box_roundtrip (kp : KeyPair) (v eph : String) :
    sealedBoxOpen kp (encrypt_secret kp.public_key v eph) = some v := by
  simp [sealedBoxOpen, encrypt_secret, sealedBoxSeal]

/-- C9: two invocations of `encrypt_secret` on the same plaintext under
the same public key that draw different ephemeral keying material
produce different ciphertexts; the ephemeral material of two separate
invocations differs with overwhelming probability. -/
theorem ciphertext_depends_on_ephemeral (pk v e1 e2 : String) (h : e1 ≠ e2) :
    encrypt_secret pk v e1 ≠ encrypt_secret pk v e2 := by
  intro hc
  apply h
  simpa [encrypt_secret, sealedBoxSeal, Ciphertext.mk.injEq] using hc

theorem ciphertext_depends_on_ephemeral_witness :
    encrypt_secret "PK" "x" "0" ≠ encrypt_secret "PK" "x" "1" :=
  ciphertext_depends_on_ephemeral "PK" "x" "0" "1" (by decide)

/-- C10: with a well formed key endpoint, a full run emits exactly one
key fetch per secret with a truthy value, so the key is fetched fresh
for each published secret and never cached across secrets; moreover
every `set_secret` call begins with the authenticated GET for the public
key of its own repository and contains exactly one fetch. -/
theorem fresh_key_fetch_per_secret (repo token : Option String)
    (secrets : List (String × Option String)) (net : Network) (ephs : Nat → String)
    (k kid : String) (hr : truthy repo = true) (ht : truthy token = true)
    (hk : (net.keyResponse (repo.getD "")).key = some k)
    (hkid : (net.keyResponse (repo.getD "")).key_id = some kid) :
    fetchCount (main_run repo token secrets net ephs).1 = truthyCount secrets ∧
    (∀ (r t name v eph : String),
      fetchCount (set_secret net r t name v eph).1 = 1 ∧
      (set_secret net r t name v eph).1.head? =
        some (Event.getKey
          ("https://api.github.com/repos/" ++ r ++ "/actions/secrets/public-key") t)) := by
  constructor
  · have hcount := runLoop_fetchCount net ephs (repo.getD "") (token.getD "") k kid hk hkid
      secrets 0 0 secrets.length
    simpa [main_run, hr, ht] using hcount
  · intro r t name v eph
    exact ⟨set_secret_fetchCount net r t name v eph, set_secret_head net r t name v eph⟩

theorem fresh_key_fetch_per_secret_witness :
    fetchCount (main_run (some "r") (some "t")
      [("A", some "x"), ("B", none)] net201 ephs0).1 =
      truthyCount [("A", some "x"), ("B", none)] :=
  (fresh_key_fetch_per_secret (some "r") (some "t") [("A", some "x"), ("B", none)]
    net201 ephs0 "PK" "KID" rfl rfl rfl rfl).1
